import Mathlib

/-!
Verification of `inst/scripts/add_study_and_sample.py` (polars-based ETL that
enriches curated metagenomic metadata tables with SRA run statistics).

The script is shallowly embedded:
* Python/polars data frames become Lean structures over `List`;
* polars string cells are `Option String` (`none` = null);
* fallible Python code (exceptions, assertions) returns explicit results
  tagged by `PyErr`.
All definitions are executable, so concrete witnesses evaluate by `rfl` or
`decide`.
-/

/-- Python exception kinds raised by the script. -/
inductive PyErr
  | assertionError
  | indexError
  | attributeError
  | columnNotFound
  | castError
deriving DecidableEq

/-! ### Character-list string utilities

Python / polars string primitives (`str.split`, `startswith`, CSV
serialisation) are modelled on `List Char` with structural recursion so the
kernel can evaluate them. -/

/-- Split accumulator: `acc` holds the current field reversed. -/
def splitCharAux (sep : Char) : List Char → List Char → List (List Char)
  | [], acc => [acc.reverse]
  | c :: cs, acc =>
    if c = sep then acc.reverse :: splitCharAux sep cs []
    else splitCharAux sep cs (c :: acc)

/-- Split a character list on a separator character.  Mirrors Python
`str.split(sep)` / polars `str.split`: never returns `[]`, and splitting the
empty string yields `[[]]`. -/
def splitCharList (sep : Char) (s : List Char) : List (List Char) :=
  splitCharAux sep s []

/-- Python `s.split(sep)` on Lean `String`s (via the underlying character list). -/
def splitStr (sep : Char) (s : String) : List String :=
  (splitCharList sep s.data).map String.mk

/-- Python `s.startswith(pre)`. -/
def pyStartsWith (s pre : String) : Bool :=
  s.data.take pre.data.length == pre.data

/-- Join character lists with a separator character (CSV line/file glue). -/
def joinChar (sep : Char) : List (List Char) → List Char
  | [] => []
  | [l] => l
  | l :: l' :: ls => l ++ sep :: joinChar sep (l' :: ls)

/-! ### CSV-file level model (reference-table acquisition)

`download_sra_run_members` / `load_sra_run_members` manipulate an on-disk
cache file.  A parsed CSV is a header plus rows of nullable string cells. -/

/-- A parsed tab/comma-separated table: header names plus rows of nullable
cells (polars `null_values="-"` turns `-` into null). -/
structure CsvTable where
  header : List String
  rows : List (List (Option String))
deriving DecidableEq

/-- One cell as serialised by polars `write_csv`: null becomes the empty
string. -/
def writeCsvCell : Option String → List Char
  | none => []
  | some s => s.data

/-- One row as serialised by polars `write_csv` with its default separator
`,` (the source calls `write_csv` without a `separator` argument). -/
def writeCsvLine (cells : List (Option String)) : List Char :=
  joinChar ',' (cells.map writeCsvCell)

/-- polars `DataFrame.write_csv("SRA_Run_Members.tsv.gz")`: header line and
data lines joined by newlines, fields joined by the default separator `,`.
(The file is plain text; the `.gz` name does not gzip it.) -/
def write_csv (t : CsvTable) : List Char :=
  joinChar '\n' (joinChar ',' (t.header.map String.data) :: t.rows.map writeCsvLine)

/-- Cell parsing for `pl.read_csv(..., null_values="-")`: the literal `-`
token is null; an empty field is null (polars default for string columns). -/
def parseCsvCell (s : List Char) : Option String :=
  if s = [] ∨ s = ['-'] then none else some (String.mk s)

/-- Model of `pl.read_csv(..., separator=sep, has_header=True, null_values="-")` on
in-memory file content. -/
def read_csv (sep : Char) (content : List Char) : CsvTable :=
  match splitCharList '\n' content with
  | [] => ⟨[], []⟩
  | h :: rest =>
    ⟨(splitCharList sep h).map String.mk,
     rest.map (fun line => (splitCharList sep line).map parseCsvCell)⟩

/-- Is the cell text an integer literal (what `cast(pl.Int64)` accepts)? -/
def isIntString (s : String) : Bool :=
  match s.data with
  | [] => false
  | '-' :: ds => !ds.isEmpty && ds.all Char.isDigit
  | ds => ds.all Char.isDigit

/-- Model of `pl.col(name).cast(pl.Int64)`: fails with a column-not-found error when
the column is absent, fails with a cast error when some non-null cell is not
an integer literal.  (Cell values stay in their textual form: the model keeps
one uniform cell representation on both sides of round-trip comparisons.) -/
def castIntCol (name : String) (t : CsvTable) : Except PyErr CsvTable :=
  match t.header.findIdx? (· == name) with
  | none => .error .columnNotFound
  | some i =>
    if t.rows.all (fun r =>
        match r[i]? with
        | some (some s) => isIntString s
        | _ => true)
    then .ok t else .error .castError

/-- Model of `.filter(pl.col("Status") == "live")`: a null status compares to null,
which is filtered out. -/
def filterLive (t : CsvTable) : Except PyErr CsvTable :=
  match t.header.findIdx? (· == "Status") with
  | none => .error .columnNotFound
  | some i => .ok ⟨t.header, t.rows.filter (fun r => r[i]? == some (some "live"))⟩

/-- Model of `.drop("Status", "Member_Name")`: drop the named columns (error when one
is absent). -/
def dropColumns (names : List String) (t : CsvTable) : Except PyErr CsvTable :=
  if names.all (fun n => t.header.contains n) then
    .ok ⟨t.header.filter (fun h => !names.contains h),
         t.rows.map (fun r =>
           ((t.header.zip r).filter (fun p => !names.contains p.1)).map Prod.snd)⟩
  else .error .columnNotFound

/-- The in-memory transformation applied by `load_sra_run_members` after
parsing: Int64 casts of `Spots`/`Bases`, the live filter, the column drops. -/
def refTransform (t : CsvTable) : Except PyErr CsvTable := do
  let t1 ← castIntCol "Spots" t
  let t2 ← castIntCol "Bases" t1
  let t3 ← filterLive t2
  dropColumns ["Status", "Member_Name"] t3

/-- Model of `load_sra_run_members`: read the cache file with `separator="\t"`,
`null_values="-"`, then cast/filter/drop. -/
def load_sra_run_members (content : List Char) : Except PyErr CsvTable :=
  refTransform (read_csv '\t' content)

/-- Model of `download_sra_run_members(replace)`: state-passing model.  `cache` is
the current content of `SRA_Run_Members.tsv.gz` (`none` = file absent);
`remote` is the table parsed from the NCBI URL.  Returns the new cache
content and whether a network fetch happened.  When it fetches, the cache is
unlinked and rewritten with `write_csv` of the downloaded table. -/
def download_sra_run_members (replace : Bool) (cache : Option (List Char))
    (remote : CsvTable) : Option (List Char) × Bool :=
  if replace || cache.isNone then (some (write_csv remote), true)
  else (cache, false)

/-! ### Relational model of the enrichment join

`add_study_and_sample_info(df, df1, f)` receives the already-loaded
reference frame `df1` and a curated frame `df`.  Rows become structures;
which columns exist in the curated frame is a table-level flag. -/

/-- One row of the loaded reference table (after the live filter and column
drops of `load_sra_run_members`). -/
structure RefRow where
  Run : Option String
  Spots : Option Int
  Bases : Option Int
  BioSample : Option String
  Experiment : Option String
  Sample : Option String
  Study : Option String
deriving DecidableEq

/-- One row of the raw reference table before `load_sra_run_members`
filters it (it still has `Status` and `Member_Name`).  `Spots`/`Bases` are
already integer-typed; the `cast(pl.Int64)` is the identity at this level. -/
structure RawRefRow where
  Run : Option String
  Spots : Option Int
  Bases : Option Int
  BioSample : Option String
  Experiment : Option String
  Sample : Option String
  Study : Option String
  Status : Option String
  Member_Name : Option String
deriving DecidableEq

/-- The relational content of `load_sra_run_members`: keep rows with status
`live`, drop the `Status` and `Member_Name` columns. -/
def sraRunMembersLive (raw : List RawRefRow) : List RefRow :=
  (raw.filter (fun r => r.Status == some "live")).map
    (fun r => ⟨r.Run, r.Spots, r.Bases, r.BioSample, r.Experiment, r.Sample, r.Study⟩)

/-- One row of a curated table.  `sample_id` and `ncbi_accession` are the
two columns the script inspects; `rest` carries the remaining curated
columns.  (A field is meaningful only when the corresponding column-presence
flag of the table is set.) -/
structure CurRow where
  sample_id : Option String
  ncbi_accession : Option String
  rest : List (Option String)
deriving DecidableEq

/-- A curated table as loaded by `load_curated_data`: which of the two
inspected columns exist, plus the rows. -/
structure CuratedTable where
  hasNcbiCol : Bool
  hasSampleIdCol : Bool
  rows : List CurRow
deriving DecidableEq

/-- Model of `.with_columns(pl.col("ncbi_accession").str.split(";")).explode(...)`
applied to one selected row: a null accession explodes to a single null,
otherwise one output pair per `;`-separated component. -/
def explodeAcc (r : CurRow) : List (Option String × Option String) :=
  match r.ncbi_accession with
  | none => [(r.sample_id, none)]
  | some s =>
    match splitStr ';' s with
    | [] => [(r.sample_id, none)]
    | a :: as_ => (a :: as_).map (fun a => (r.sample_id, some a))

/-- A row after the Scheme-A left join: the exploded accession joined
against the reference table on `Run`.  `ref = none` means no match (all
reference columns null). -/
structure JRowA where
  sample_id : Option String
  ncbi_accession : Option String
  ref : Option RefRow
deriving DecidableEq

/-- Left-join one exploded row against the reference table on
`ncbi_accession = Run` (polars: null keys match nothing; an unmatched left
row is kept with null right columns; every matching right row yields an
output row). -/
def joinOneA (df1 : List RefRow) (sid acc : Option String) : List JRowA :=
  match acc with
  | none => [⟨sid, none, none⟩]
  | some a =>
    match df1.filter (fun q => q.Run == some a) with
    | [] => [⟨sid, some a, none⟩]
    | m :: ms => (m :: ms).map (fun q => ⟨sid, some a, some q⟩)

/-- Model of `.join(df1, right_on="Run", left_on="ncbi_accession", how="left")`. -/
def leftJoinA (df1 : List RefRow) (es : List (Option String × Option String)) : List JRowA :=
  es.flatMap (fun e => joinOneA df1 e.1 e.2)

/-- First-occurrence list of group keys (polars `group_by` produces one
group per distinct key; nulls form a group of their own). -/
def firstKeysAux : List (Option String) → List (Option String) → List (Option String)
  | [], acc => acc.reverse
  | k :: ks, acc =>
    if k ∈ acc then firstKeysAux ks acc else firstKeysAux ks (k :: acc)

/-- Distinct keys of a list, in order of first occurrence. -/
def firstKeys (l : List (Option String)) : List (Option String) :=
  firstKeysAux l []

/-- Model of `group_by(key)`: one `(key, member rows)` pair per distinct key.  The
rows of each group keep their original order (which polars guarantees for
aggregation order inside a group). -/
def groupByKey {α : Type} (key : α → Option String) (l : List α) :
    List (Option String × List α) :=
  (firstKeys (l.map key)).map (fun k => (k, l.filter (fun r => key r == k)))

/-- The aggregate produced for one Scheme-A group. -/
structure AggA where
  sample_id : Option String
  ncbi_accession : List (Option String)
  spots : Int
  bases : Int
  biosample : Option String
  sra_experiment : Option String
  sra_sample : Option String
  sra_study : Option String
deriving DecidableEq

/-- polars `pl.col(c).first()` inside `agg`: the first value of the column
in the group, nulls included (it does not skip nulls). -/
def firstAggValA (g : List JRowA) (f : RefRow → Option String) : Option String :=
  match g with
  | [] => none
  | r :: _ => r.ref.bind f

/-- The `agg(...)` of Scheme A: collect the accession column, sum
`Spots`/`Bases` (polars `sum` skips nulls and yields 0 when nothing
contributes), take `first()` of the four identifier columns. -/
def aggGroupA (p : Option String × List JRowA) : AggA :=
  { sample_id := p.1
  , ncbi_accession := p.2.map JRowA.ncbi_accession
  , spots := (p.2.filterMap (fun r => r.ref.bind RefRow.Spots)).sum
  , bases := (p.2.filterMap (fun r => r.ref.bind RefRow.Bases)).sum
  , biosample := firstAggValA p.2 RefRow.BioSample
  , sra_experiment := firstAggValA p.2 RefRow.Experiment
  , sra_sample := firstAggValA p.2 RefRow.Sample
  , sra_study := firstAggValA p.2 RefRow.Study }

/-- Do two join keys match?  polars joins never match on null. -/
def keyMatches (a b : Option String) : Bool :=
  match a, b with
  | some x, some y => x == y
  | _, _ => false

/-- Right join (`how="right"`) on `sample_id`: every curated row is kept; it is
paired with each aggregate row whose key matches, or with nulls when none
does. -/
def rightJoinOn {β γ : Type} (key : β → Option String) (mk : CurRow → Option β → γ)
    (left : List β) (rows : List CurRow) : List γ :=
  rows.flatMap (fun r =>
    match left.filter (fun b => keyMatches (key b) r.sample_id) with
    | [] => [mk r none]
    | m :: ms => (m :: ms).map (fun b => mk r (some b)))

/-- Scheme-A output row: the curated row (its `ncbi_accession` column was
dropped before the right join) plus the group aggregate, if any. -/
structure OutRowA where
  sample_id : Option String
  rest : List (Option String)
  agg : Option AggA
deriving DecidableEq

/-- Scheme A (explicit accession column) of `add_study_and_sample_info`. -/
def schemeA (df : CuratedTable) (df1 : List RefRow) : List OutRowA :=
  rightJoinOn AggA.sample_id (fun r a => ⟨r.sample_id, r.rest, a⟩)
    ((groupByKey JRowA.sample_id
        (leftJoinA df1 (df.rows.flatMap explodeAcc))).map aggGroupA)
    df.rows

/-- A row after the Scheme-B left join on `sample_id = BioSample`. -/
structure JRowB where
  sample_id : Option String
  ref : Option RefRow
deriving DecidableEq

/-- Left-join one selected `sample_id` against the reference table on
`BioSample`. -/
def joinOneB (df1 : List RefRow) (sid : Option String) : List JRowB :=
  match sid with
  | none => [⟨none, none⟩]
  | some s =>
    match df1.filter (fun q => q.BioSample == some s) with
    | [] => [⟨some s, none⟩]
    | m :: ms => (m :: ms).map (fun q => ⟨some s, some q⟩)

/-- Model of `.join(df1, right_on="BioSample", left_on="sample_id", how="left")`. -/
def leftJoinB (df1 : List RefRow) (sids : List (Option String)) : List JRowB :=
  sids.flatMap (joinOneB df1)

/-- The aggregate produced for one Scheme-B group. -/
structure AggB where
  sample_id : Option String
  spots : Int
  bases : Int
  biosample : Option String
  sra_experiment : Option String
  sra_sample : Option String
  sra_study : Option String
deriving DecidableEq

/-- Value of `first()` of a reference column in a Scheme-B group. -/
def firstAggValB (g : List JRowB) (f : RefRow → Option String) : Option String :=
  match g with
  | [] => none
  | r :: _ => r.ref.bind f

/-- The `agg(...)` of Scheme B.  `biosample` is
`pl.col("sample_id").first()`, i.e. the group key itself. -/
def aggGroupB (p : Option String × List JRowB) : AggB :=
  { sample_id := p.1
  , spots := (p.2.filterMap (fun r => r.ref.bind RefRow.Spots)).sum
  , bases := (p.2.filterMap (fun r => r.ref.bind RefRow.Bases)).sum
  , biosample := p.1
  , sra_experiment := firstAggValB p.2 RefRow.Experiment
  , sra_sample := firstAggValB p.2 RefRow.Sample
  , sra_study := firstAggValB p.2 RefRow.Study }

/-- Scheme-B output row: the full curated row plus the group aggregate. -/
structure OutRowB where
  row : CurRow
  agg : Option AggB
deriving DecidableEq

/-- Scheme B (biosample-style `sample_id`) of `add_study_and_sample_info`. -/
def schemeB (df : CuratedTable) (df1 : List RefRow) : List OutRowB :=
  rightJoinOn AggB.sample_id (fun r a => ⟨r, a⟩)
    ((groupByKey JRowB.sample_id
        (leftJoinB df1 (df.rows.map CurRow.sample_id))).map aggGroupB)
    df.rows

/-- The enriched frame `df2` of `add_study_and_sample_info`: initialised
empty, possibly replaced by a Scheme-A or Scheme-B result. -/
inductive Df2
  | empty
  | A (rows : List OutRowA)
  | B (rows : List OutRowB)
deriving DecidableEq

/-- Row count `df2.shape[0]`. -/
def Df2.numRows : Df2 → Nat
  | .empty => 0
  | .A r => r.length
  | .B r => r.length

/-- The dispatch and join logic of `add_study_and_sample_info` (everything
before `write_ndjson`): Scheme A when the `ncbi_accession` column exists
(`select` then needs `sample_id` too), otherwise Scheme B when a
`sample_id` column exists and `df.item(1, "sample_id")` starts with `SAM`
(`item` raises when row 1 is absent, `.startswith` raises on a null),
otherwise the initial empty frame. -/
def computeDf2 (df : CuratedTable) (df1 : List RefRow) : Except PyErr Df2 :=
  if df.hasNcbiCol then
    if df.hasSampleIdCol then .ok (.A (schemeA df df1))
    else .error .columnNotFound
  else if df.hasSampleIdCol then
    match df.rows[1]? with
    | none => .error .indexError
    | some r =>
      match r.sample_id with
      | none => .error .attributeError
      | some s =>
        if pyStartsWith s "SAM" then .ok (.B (schemeB df df1))
        else .ok .empty
  else .ok .empty

/-- Model of `add_study_and_sample_info(df, df1, f)`: compute `df2`, write it to the
`.ndjson` sibling file (`fs` is that file's content, `none` = absent), then
`assert df2.shape[0] == df.shape[0]`.  Returns the final file state and the
outcome. -/
def add_study_and_sample_info (df : CuratedTable) (df1 : List RefRow)
    (fs : Option Df2) : Option Df2 × Except PyErr Unit :=
  match computeDf2 df df1 with
  | .error e => (fs, .error e)
  | .ok d =>
    if d.numRows = df.rows.length then (some d, .ok ())
    else (some d, .error .assertionError)

/-! ### Decidable equality for `Except` (used by concrete witnesses) -/

instance {ε α : Type} [DecidableEq ε] [DecidableEq α] : DecidableEq (Except ε α) := fun x y =>
  match x, y with
  | .ok a, .ok b => decidable_of_iff (a = b) (by simp)
  | .error a, .error b => decidable_of_iff (a = b) (by simp)
  | .ok _, .error _ => isFalse (fun h => Except.noConfusion h)
  | .error _, .ok _ => isFalse (fun h => Except.noConfusion h)

/-! ### Generic list lemmas about the join/group building blocks -/

theorem keyMatches_iff {a b : Option String} :
    keyMatches a b = true ↔ ∃ s, a = some s ∧ b = some s := by
  cases a <;> cases b <;> simp [keyMatches]
  exact eq_comm

theorem filter_flatMap_of_const {α β : Type} (l : List α) (f : α → List β)
    (p : β → Bool) (q : α → Bool) (h : ∀ a, ∀ b ∈ f a, p b = q a) :
    (l.flatMap f).filter p = (l.filter q).flatMap f := by
  induction l with
  | nil => rfl
  | cons a t ih =>
    rw [List.flatMap_cons, List.filter_append, ih, List.filter_cons]
    by_cases hq : q a = true
    · rw [if_pos hq, List.flatMap_cons,
        List.filter_eq_self.mpr (fun b hb => (h a b hb).trans hq)]
    · rw [if_neg hq, List.filter_eq_nil_iff.mpr
        (fun b hb hpb => hq ((h a b hb).symm.trans hpb)), List.nil_append]

theorem sum_filterMap_flatMap {α β : Type} (l : List α) (f : α → List β)
    (g : β → Option Int) :
    ((l.flatMap f).filterMap g).sum
      = (l.map (fun a => ((f a).filterMap g).sum)).sum := by
  induction l with
  | nil => rfl
  | cons a t ih =>
    rw [List.flatMap_cons, List.filterMap_append, List.sum_append, ih,
      List.map_cons, List.sum_cons]

theorem firstKeysAux_nodup (l : List (Option String)) :
    ∀ acc : List (Option String), acc.Nodup → (firstKeysAux l acc).Nodup := by
  induction l with
  | nil =>
    intro acc h
    simpa [firstKeysAux] using List.nodup_reverse.mpr h
  | cons k t ih =>
    intro acc h
    by_cases hk : k ∈ acc
    · simpa [firstKeysAux, hk] using ih acc h
    · simpa [firstKeysAux, hk] using ih (k :: acc) (List.nodup_cons.mpr ⟨hk, h⟩)

theorem firstKeys_nodup (l : List (Option String)) : (firstKeys l).Nodup :=
  firstKeysAux_nodup l [] List.nodup_nil

theorem length_filter_keyMatches_le_one {β : Type} (key : β → Option String)
    (l : List β) (h : (l.map key).Nodup) (b : Option String) :
    (l.filter (fun x => keyMatches (key x) b)).length ≤ 1 := by
  induction l with
  | nil => simp
  | cons a t ih =>
    rw [List.map_cons, List.nodup_cons] at h
    rw [List.filter_cons]
    by_cases hm : keyMatches (key a) b = true
    · rw [if_pos hm]
      have ht : t.filter (fun x => keyMatches (key x) b) = [] := by
        refine List.filter_eq_nil_iff.mpr (fun x hx hmx => h.1 ?_)
        rcases keyMatches_iff.mp hm with ⟨s, hs1, hs2⟩
        rcases keyMatches_iff.mp hmx with ⟨s', hs1', hs2'⟩
        have hss : s' = s := by rw [hs2] at hs2'; exact (Option.some.inj hs2').symm
        have : key x = key a := by rw [hs1, hs1', hss]
        exact this ▸ List.mem_map_of_mem key hx
      rw [ht]
      simp
    · rw [if_neg hm]
      exact ih h.2

theorem rightJoin_block_length {β γ : Type} (key : β → Option String)
    (mk : CurRow → Option β → γ) (left : List β)
    (h : (left.map key).Nodup) (r : CurRow) :
    (match left.filter (fun b => keyMatches (key b) r.sample_id) with
     | [] => [mk r none]
     | m :: ms => (m :: ms).map (fun b => mk r (some b))).length = 1 := by
  have hle := length_filter_keyMatches_le_one key left h r.sample_id
  cases hf : left.filter (fun b => keyMatches (key b) r.sample_id) with
  | nil => rfl
  | cons m ms =>
    rw [hf, List.length_cons] at hle
    rw [List.length_map, List.length_cons]
    omega

theorem length_rightJoinOn {β γ : Type} (key : β → Option String)
    (mk : CurRow → Option β → γ) (left : List β) (rows : List CurRow)
    (h : (left.map key).Nodup) :
    (rightJoinOn key mk left rows).length = rows.length := by
  induction rows with
  | nil => rfl
  | cons r t ih =>
    have hsplit : rightJoinOn key mk left (r :: t)
        = (match left.filter (fun b => keyMatches (key b) r.sample_id) with
           | [] => [mk r none]
           | m :: ms => (m :: ms).map (fun b => mk r (some b)))
          ++ rightJoinOn key mk left t := by
      rw [rightJoinOn, rightJoinOn, List.flatMap_cons]
    rw [hsplit, List.length_append, rightJoin_block_length key mk left h r, ih,
      List.length_cons, Nat.add_comm]

theorem groupByKey_keys {α : Type} (key : α → Option String) (l : List α) :
    (groupByKey key l).map Prod.fst = firstKeys (l.map key) := by
  rw [groupByKey, List.map_map]
  have h : ∀ k ∈ firstKeys (l.map key),
      (Prod.fst ∘ fun k => (k, l.filter (fun r => key r == k))) k = id k :=
    fun k _ => rfl
  rw [List.map_congr_left h, List.map_id]

theorem groupByKey_snd_eq {α : Type} (key : α → Option String) (l : List α)
    (p : Option String × List α) (hp : p ∈ groupByKey key l) :
    p.2 = l.filter (fun r => key r == p.1) := by
  rcases List.mem_map.mp hp with ⟨k, _, rfl⟩
  rfl

/-! ### Structure of the Scheme-A / Scheme-B pipelines -/

theorem aggA_keys (groups : List (Option String × List JRowA)) :
    (groups.map aggGroupA).map AggA.sample_id = groups.map Prod.fst := by
  rw [List.map_map]
  exact List.map_congr_left (fun p _ => rfl)

theorem aggB_keys (groups : List (Option String × List JRowB)) :
    (groups.map aggGroupB).map AggB.sample_id = groups.map Prod.fst := by
  rw [List.map_map]
  exact List.map_congr_left (fun p _ => rfl)

theorem length_schemeA (df : CuratedTable) (df1 : List RefRow) :
    (schemeA df df1).length = df.rows.length := by
  apply length_rightJoinOn
  rw [aggA_keys, groupByKey_keys]
  exact firstKeys_nodup _

theorem length_schemeB (df : CuratedTable) (df1 : List RefRow) :
    (schemeB df df1).length = df.rows.length := by
  apply length_rightJoinOn
  rw [aggB_keys, groupByKey_keys]
  exact firstKeys_nodup _

theorem joinOneA_sample_id (df1 : List RefRow) (sid acc : Option String) :
    ∀ r ∈ joinOneA df1 sid acc, r.sample_id = sid := by
  intro r hr
  cases acc with
  | none =>
    rw [List.mem_singleton.mp hr]
  | some a =>
    simp only [joinOneA] at hr
    cases hf : df1.filter (fun q => q.Run == some a) with
    | nil =>
      rw [hf] at hr
      rw [List.mem_singleton.mp hr]
    | cons m ms =>
      rw [hf] at hr
      rcases List.mem_map.mp hr with ⟨q, _, rfl⟩
      rfl

theorem explodeAcc_fst (r : CurRow) :
    ∀ e ∈ explodeAcc r, e.1 = r.sample_id := by
  intro e he
  rw [explodeAcc] at he
  cases hn : r.ncbi_accession with
  | none =>
    rw [hn] at he
    rw [List.mem_singleton.mp he]
  | some s =>
    rw [hn] at he
    have he' : e ∈ (match splitStr ';' s with
        | [] => [(r.sample_id, (none : Option String))]
        | a :: as_ => (a :: as_).map (fun a => (r.sample_id, some a))) := he
    cases hs : splitStr ';' s with
    | nil =>
      rw [hs] at he'
      rw [List.mem_singleton.mp he']
    | cons a as_ =>
      rw [hs] at he'
      rcases List.mem_map.mp he' with ⟨b, _, rfl⟩
      rfl

theorem leftJoinA_filter_key (df1 : List RefRow)
    (es : List (Option String × Option String)) (k : Option String) :
    (leftJoinA df1 es).filter (fun r => r.sample_id == k)
      = leftJoinA df1 (es.filter (fun e => e.1 == k)) :=
  filter_flatMap_of_const es (fun e => joinOneA df1 e.1 e.2) _ _
    (fun e r hr => by rw [joinOneA_sample_id df1 e.1 e.2 r hr])

theorem explode_filter_key (rows : List CurRow) (k : Option String) :
    (rows.flatMap explodeAcc).filter (fun e => e.1 == k)
      = (rows.filter (fun r => r.sample_id == k)).flatMap explodeAcc :=
  filter_flatMap_of_const rows explodeAcc _ _
    (fun r e he => by rw [explodeAcc_fst r e he])

/-- Per-exploded-row contribution to the `Spots` sum in Scheme A. -/
theorem joinOneA_spots_sum (df1 : List RefRow) (sid acc : Option String) :
    ((joinOneA df1 sid acc).filterMap (fun r => r.ref.bind RefRow.Spots)).sum
      = (match acc with
         | none => 0
         | some a => ((df1.filter (fun q => q.Run == some a)).filterMap RefRow.Spots).sum) := by
  cases acc with
  | none => rfl
  | some a =>
    show ((joinOneA df1 sid (some a)).filterMap (fun r => r.ref.bind RefRow.Spots)).sum
      = ((df1.filter (fun q => q.Run == some a)).filterMap RefRow.Spots).sum
    simp only [joinOneA]
    cases hf : df1.filter (fun q => q.Run == some a) with
    | nil => rfl
    | cons m ms =>
      rw [List.filterMap_map]
      rfl

/-- Per-exploded-row contribution to the collected accession list. -/
theorem joinOneA_accs (df1 : List RefRow) (sid acc : Option String) :
    (joinOneA df1 sid acc).map JRowA.ncbi_accession
      = (match acc with
         | none => [none]
         | some a =>
           match df1.filter (fun q => q.Run == some a) with
           | [] => [some a]
           | m :: ms => (m :: ms).map (fun _ => some a)) := by
  cases acc with
  | none => rfl
  | some a =>
    simp only [joinOneA]
    cases hf : df1.filter (fun q => q.Run == some a) with
    | nil => rfl
    | cons m ms =>
      rw [List.map_map]
      rfl

/-- Value of `first()` over a Scheme-A left join, expressed on the un-joined rows. -/
theorem firstAggValA_leftJoinA (df1 : List RefRow)
    (es : List (Option String × Option String)) (f : RefRow → Option String) :
    firstAggValA (leftJoinA df1 es) f
      = (match es with
         | [] => none
         | e :: _ =>
           match e.2 with
           | none => none
           | some a =>
             match df1.filter (fun q => q.Run == some a) with
             | [] => none
             | q :: _ => f q) := by
  cases es with
  | nil => rfl
  | cons e es' =>
    rcases e with ⟨e1, e2⟩
    show firstAggValA (joinOneA df1 e1 e2 ++ leftJoinA df1 es') f = _
    cases e2 with
    | none => rfl
    | some a =>
      simp only [joinOneA]
      cases hf : df1.filter (fun q => q.Run == some a) with
      | nil => rfl
      | cons q qs => rfl

/-! ### Column-name normalisation of `load_curated_data`

`load_curated_data` renames every column with `str.lower`, then with
`str.strip`.  Column names are modelled as code-point sequences
(`List Nat`); `str.lower` as the ASCII case map and `str.strip` as removal
of leading/trailing whitespace code points. -/

/-- Python `str.lower` on one code point (ASCII letters). -/
def pyLower (c : Nat) : Nat := if 65 ≤ c ∧ c ≤ 90 then c + 32 else c

/-- The whitespace code points removed by Python `str.strip()` (ASCII
range). -/
def isPySpace (c : Nat) : Bool :=
  c == 32 || c == 9 || c == 10 || c == 13 || c == 11 || c == 12

/-- Python `str.lower` on a column name. -/
def lowerName (s : List Nat) : List Nat := s.map pyLower

/-- Leading-whitespace removal (the left half of `str.strip`). -/
def ldropSpaces (s : List Nat) : List Nat := s.dropWhile isPySpace

/-- Trailing-whitespace removal (the right half of `str.strip`). -/
def rdropSpaces : List Nat → List Nat
  | [] => []
  | c :: cs =>
    match rdropSpaces cs with
    | [] => if isPySpace c then [] else [c]
    | x :: xs => c :: x :: xs

/-- Python `str.strip` on a column name. -/
def stripName (s : List Nat) : List Nat := rdropSpaces (ldropSpaces s)

/-- The composite column-name normalisation applied by `load_curated_data`:
first `str.lower`, then `str.strip`. -/
def normalizeColumnName (s : List Nat) : List Nat := stripName (lowerName s)

/-- Model of `.rename(str.lower).rename(str.strip)` applied to a header. -/
def load_curated_data_rename (header : List (List Nat)) : List (List Nat) :=
  (header.map lowerName).map stripName

theorem pyLower_idem (c : Nat) : pyLower (pyLower c) = pyLower c := by
  simp only [pyLower]
  split_ifs <;> omega

theorem mem_of_mem_rdropSpaces {x : Nat} {s : List Nat}
    (h : x ∈ rdropSpaces s) : x ∈ s := by
  induction s with
  | nil => exact absurd h (List.not_mem_nil x)
  | cons c cs ih =>
    rw [rdropSpaces] at h
    cases hr : rdropSpaces cs with
    | nil =>
      rw [hr] at h
      by_cases hc : isPySpace c
      · rw [if_pos hc] at h
        exact absurd h (List.not_mem_nil x)
      · rw [if_neg hc] at h
        rw [List.mem_singleton.mp h]
        exact List.mem_cons_self c cs
    | cons y ys =>
      rw [hr] at h
      rcases List.mem_cons.mp h with h | h
      · rw [h]; exact List.mem_cons_self c cs
      · exact List.mem_cons_of_mem c (ih (hr ▸ h))

theorem mem_of_mem_ldropSpaces {x : Nat} {s : List Nat}
    (h : x ∈ ldropSpaces s) : x ∈ s := by
  induction s with
  | nil => exact absurd h (List.not_mem_nil x)
  | cons c cs ih =>
    rw [ldropSpaces, List.dropWhile_cons] at h
    by_cases hc : isPySpace c
    · simp only [hc, if_true] at h
      exact List.mem_cons_of_mem c (ih h)
    · simp only [hc, if_false] at h
      exact h

theorem mem_of_mem_stripName {x : Nat} {s : List Nat}
    (h : x ∈ stripName s) : x ∈ s :=
  mem_of_mem_ldropSpaces (mem_of_mem_rdropSpaces h)

theorem lowerName_stripName_lowerName (s : List Nat) :
    lowerName (stripName (lowerName s)) = stripName (lowerName s) := by
  rw [lowerName]
  have h : ∀ x ∈ stripName (lowerName s), pyLower x = id x := by
    intro x hx
    rcases List.mem_map.mp (mem_of_mem_stripName hx) with ⟨c, _, rfl⟩
    exact pyLower_idem c
  rw [List.map_congr_left h, List.map_id]

theorem ldropSpaces_idem (s : List Nat) :
    ldropSpaces (ldropSpaces s) = ldropSpaces s := by
  induction s with
  | nil => rfl
  | cons c cs ih =>
    by_cases hc : isPySpace c
    · have h1 : ldropSpaces (c :: cs) = ldropSpaces cs := by
        rw [ldropSpaces, List.dropWhile_cons, if_pos hc]
        rfl
      rw [h1]
      exact ih
    · have h1 : ldropSpaces (c :: cs) = c :: cs := by
        rw [ldropSpaces, List.dropWhile_cons, if_neg hc]
      rw [h1]
      exact h1

theorem rdropSpaces_idem (s : List Nat) :
    rdropSpaces (rdropSpaces s) = rdropSpaces s := by
  induction s with
  | nil => rfl
  | cons c cs ih =>
    rw [rdropSpaces]
    cases hr : rdropSpaces cs with
    | nil =>
      by_cases hc : isPySpace c
      · rw [if_pos hc]; rfl
      · rw [if_neg hc, rdropSpaces]
        rw [show rdropSpaces [] = [] from rfl, if_neg hc]
    | cons x xs =>
      have hfix : rdropSpaces (x :: xs) = x :: xs := by
        rw [← hr, ih, hr]
      rw [rdropSpaces, hfix]

theorem ldropSpaces_head_false {s : List Nat} {c : Nat} {t : List Nat}
    (h : ldropSpaces s = c :: t) : isPySpace c = false := by
  induction s with
  | nil => exact absurd h (by rw [ldropSpaces]; exact fun hh => List.noConfusion hh)
  | cons a as_ ih =>
    rw [ldropSpaces, List.dropWhile_cons] at h
    by_cases ha : isPySpace a
    · rw [if_pos ha] at h
      exact ih h
    · rw [if_neg ha] at h
      obtain ⟨h1, h2⟩ := List.cons.inj h
      rw [← h1]
      simpa using ha

theorem rdropSpaces_cons_shape (c : Nat) (t : List Nat) :
    rdropSpaces (c :: t) = [] ∨ ∃ u, rdropSpaces (c :: t) = c :: u := by
  rw [rdropSpaces]
  cases rdropSpaces t with
  | nil =>
    by_cases hc : isPySpace c
    · rw [if_pos hc]; exact Or.inl rfl
    · rw [if_neg hc]; exact Or.inr ⟨[], rfl⟩
  | cons x xs => exact Or.inr ⟨x :: xs, rfl⟩

theorem ldropSpaces_rdropSpaces_ldropSpaces (s : List Nat) :
    ldropSpaces (rdropSpaces (ldropSpaces s)) = rdropSpaces (ldropSpaces s) := by
  cases h : ldropSpaces s with
  | nil => rfl
  | cons c t =>
    have hc : isPySpace c = false := ldropSpaces_head_false h
    rcases rdropSpaces_cons_shape c t with hshape | ⟨u, hshape⟩
    · rw [hshape]
      rfl
    · rw [hshape, ldropSpaces, List.dropWhile_cons]
      simp [hc]

theorem stripName_idem (s : List Nat) :
    stripName (stripName s) = stripName s := by
  rw [stripName, stripName, ldropSpaces_rdropSpaces_ldropSpaces, rdropSpaces_idem]

/-! ### Specification-side expressions used to state the claims -/

/-- Sum of the `Spots` of every reference row matching one accession. -/
def refSpotsFor (df1 : List RefRow) (a : String) : Int :=
  ((df1.filter (fun q => q.Run == some a)).filterMap RefRow.Spots).sum

/-- Occurrence-wise read-count total for the group keyed `k`: every
occurrence of an accession in the (concatenated, exploded) accession lists
of the group's curated rows contributes the `Spots` of all reference rows
matching it; null identifiers and unmatched accessions contribute zero. -/
def spotsByOccurrence (df : CuratedTable) (df1 : List RefRow) (k : Option String) : Int :=
  (((df.rows.filter (fun r => r.sample_id == k)).flatMap explodeAcc).map
    (fun e =>
      match e.2 with
      | none => 0
      | some a => refSpotsFor df1 a)).sum

/-- The read-count total as claim C2 words it: each live reference row is
counted once when its run identifier appears anywhere in the group's
accession lists. -/
def spotsBySetMembership (df : CuratedTable) (df1 : List RefRow) (k : Option String) : Int :=
  ((df1.filter (fun q =>
      (df.rows.filter (fun r => r.sample_id == k)).any (fun r =>
        match r.ncbi_accession with
        | none => false
        | some s => (splitStr ';' s).any (fun a => q.Run == some a)))).filterMap
    RefRow.Spots).sum

/-- The first reference value of a Scheme-A group, expressed on the curated
rows: the reference column of the first match of the group's first exploded
accession (null when the first accession is null or unmatched). -/
def firstRefValSpec (df : CuratedTable) (df1 : List RefRow) (k : Option String)
    (f : RefRow → Option String) : Option String :=
  match (df.rows.filter (fun r => r.sample_id == k)).flatMap explodeAcc with
  | [] => none
  | e :: _ =>
    match e.2 with
    | none => none
    | some a =>
      match df1.filter (fun q => q.Run == some a) with
      | [] => none
      | q :: _ => f q

/-- The first non-null reference value within a Scheme-A group — the
aggregate claim C3 describes. -/
def firstNonNullInGroup (g : List JRowA) (f : RefRow → Option String) : Option String :=
  (g.filterMap (fun r => r.ref.bind f)).head?

/-- The accession list of a Scheme-A group, expressed on the curated rows:
every exploded component appears — once per matching reference row when
several match, once (still) when none matches, and as a null entry for a
null identifier. -/
def accListSpec (df : CuratedTable) (df1 : List RefRow) (k : Option String) :
    List (Option String) :=
  ((df.rows.filter (fun r => r.sample_id == k)).flatMap explodeAcc).flatMap
    (fun e =>
      match e.2 with
      | none => [none]
      | some a =>
        match df1.filter (fun q => q.Run == some a) with
        | [] => [some a]
        | m :: ms => (m :: ms).map (fun _ => some a))

/-- The accession list as claim C4 words it: only the components present in
the reference table. -/
def matchedAccListSpec (df : CuratedTable) (df1 : List RefRow) (k : Option String) :
    List (Option String) :=
  (((df.rows.filter (fun r => r.sample_id == k)).flatMap explodeAcc).filter
    (fun e =>
      match e.2 with
      | none => false
      | some a => df1.any (fun q => q.Run == some a))).map Prod.snd

/-- Evaluation of `add_study_and_sample_info` once `df2` is computed. -/
theorem add_eq_of_ok (df : CuratedTable) (df1 : List RefRow) (fs : Option Df2)
    (d : Df2) (h : computeDf2 df df1 = .ok d) :
    add_study_and_sample_info df df1 fs
      = (if d.numRows = df.rows.length then (some d, .ok ())
         else (some d, .error .assertionError)) := by
  unfold add_study_and_sample_info
  rw [h]

/-! ### Claims -/

/-- C1: for every curated table processed under Scheme A or Scheme B, the
enriched table has exactly as many rows as the input curated table —
whatever the `sample_id` values are, duplicated or null — and (second
conjunct) processing then completes without tripping the row-count
assertion; the assertion is what would abort on a violation. -/
theorem claim1_row_count_preserved (df : CuratedTable) (df1 : List RefRow)
    (fs : Option Df2) (d : Df2) (h : computeDf2 df df1 = .ok d)
    (hAB : (∃ ra, d = Df2.A ra) ∨ (∃ rb, d = Df2.B rb)) :
    d.numRows = df.rows.length ∧
    add_study_and_sample_info df df1 fs = (some d, .ok ()) := by
  have hlen : d.numRows = df.rows.length := by
    rw [computeDf2] at h
    by_cases hn : df.hasNcbiCol
    · rw [if_pos hn] at h
      by_cases hs : df.hasSampleIdCol
      · rw [if_pos hs] at h
        cases Except.ok.inj h
        exact length_schemeA df df1
      · rw [if_neg hs] at h
        exact absurd h (fun hh => Except.noConfusion hh)
    · rw [if_neg hn] at h
      by_cases hs : df.hasSampleIdCol
      · rw [if_pos hs] at h
        cases h1 : df.rows[1]? with
        | none =>
          rw [h1] at h
          exact absurd h (fun hh => Except.noConfusion hh)
        | some r =>
          rw [h1] at h
          have h' : (match r.sample_id with
              | none => Except.error PyErr.attributeError
              | some s =>
                if pyStartsWith s "SAM" = true then Except.ok (Df2.B (schemeB df df1))
                else Except.ok Df2.empty) = Except.ok d := h
          cases h2 : r.sample_id with
          | none =>
            rw [h2] at h'
            exact absurd h' (fun hh => Except.noConfusion hh)
          | some s =>
            rw [h2] at h'
            have h'' : (if pyStartsWith s "SAM" = true
                then Except.ok (Df2.B (schemeB df df1))
                else Except.ok Df2.empty) = Except.ok d := h'
            by_cases h3 : pyStartsWith s "SAM" = true
            · rw [if_pos h3] at h''
              cases Except.ok.inj h''
              exact length_schemeB df df1
            · rw [if_neg h3] at h''
              cases Except.ok.inj h''
              rcases hAB with ⟨ra, hra⟩ | ⟨rb, hrb⟩
              · exact Df2.noConfusion hra
              · exact Df2.noConfusion hrb
      · rw [if_neg hs] at h
        cases Except.ok.inj h
        rcases hAB with ⟨ra, hra⟩ | ⟨rb, hrb⟩
        · exact Df2.noConfusion hra
        · exact Df2.noConfusion hrb
  exact ⟨hlen, by rw [add_eq_of_ok df df1 fs d h, if_pos hlen]⟩

/-- Concrete one-row Scheme-A table for the C1 witness. -/
def w1df : CuratedTable := ⟨true, true, [⟨some "s1", some "R1", []⟩]⟩

theorem claim1_witness :
    computeDf2 w1df [] = .ok (.A (schemeA w1df [])) ∧
    ((Df2.A (schemeA w1df [])).numRows = w1df.rows.length ∧
      add_study_and_sample_info w1df [] none
        = (some (.A (schemeA w1df [])), .ok ())) :=
  ⟨rfl, claim1_row_count_preserved w1df [] none (.A (schemeA w1df [])) rfl
    (Or.inl ⟨schemeA w1df [], rfl⟩)⟩

/-- C10: the enriched output file is written before the row-count assertion
is checked; whenever the counts differ the `.ndjson` file already holds the
enriched frame when the assertion aborts the file's processing. -/
theorem claim10_output_written_before_assert (df : CuratedTable)
    (df1 : List RefRow) (fs : Option Df2) (d : Df2)
    (h : computeDf2 df df1 = .ok d) (hne : d.numRows ≠ df.rows.length) :
    add_study_and_sample_info df df1 fs = (some d, .error .assertionError) := by
  rw [add_eq_of_ok df df1 fs d h, if_neg hne]

/-- Concrete one-row table matching neither scheme, for the C10 witness. -/
def w10df : CuratedTable := ⟨false, false, [⟨none, none, [some "x10"]⟩]⟩

theorem claim10_witness :
    computeDf2 w10df [] = .ok Df2.empty ∧
    Df2.empty.numRows ≠ w10df.rows.length ∧
    add_study_and_sample_info w10df [] none
      = (some Df2.empty, .error .assertionError) :=
  ⟨rfl, by decide,
    claim10_output_written_before_assert w10df [] none Df2.empty rfl (by decide)⟩

/-- C2 (amended): in every Scheme-A output group of a Scheme-A run whose
reference table is the live-filtered SRA table, the spots aggregate is the
occurrence-wise sum `spotsByOccurrence` — one contribution per
occurrence of an accession in the group's lists; unmatched accessions and
null identifiers contribute zero, and the sum is integer-valued (never
null). -/
theorem claim2_spots_per_occurrence (df : CuratedTable) (raw : List RawRefRow)
    (p : Option String × List JRowA)
    (hp : p ∈ groupByKey JRowA.sample_id
      (leftJoinA (sraRunMembersLive raw) (df.rows.flatMap explodeAcc))) :
    (aggGroupA p).spots = spotsByOccurrence df (sraRunMembersLive raw) p.1 := by
  have h2 := groupByKey_snd_eq JRowA.sample_id _ p hp
  show (p.2.filterMap (fun r => r.ref.bind RefRow.Spots)).sum = _
  rw [h2, leftJoinA_filter_key, explode_filter_key]
  show (((((df.rows.filter (fun r => r.sample_id == p.1)).flatMap explodeAcc)).flatMap
      (fun e => joinOneA (sraRunMembersLive raw) e.1 e.2)).filterMap
      (fun r => r.ref.bind RefRow.Spots)).sum = _
  rw [sum_filterMap_flatMap, spotsByOccurrence]
  exact congrArg List.sum
    (List.map_congr_left (fun e _ => joinOneA_spots_sum (sraRunMembersLive raw) e.1 e.2))

/-- Concrete Scheme-A run for the C2 witness: accession list `R1;R9`, `R1`
live with 7 spots, `R9` absent, `R2` present but not live. -/
def w2df : CuratedTable := ⟨true, true, [⟨some "s2", some "R1;R9", []⟩]⟩

def w2raw : List RawRefRow :=
  [⟨some "R1", some 7, some 70, some "B1", some "E1", some "S1", some "P1",
    some "live", some "M1"⟩,
   ⟨some "R2", some 5, some 50, some "B2", some "E2", some "S2", some "P2",
    some "suppressed", some "M2"⟩]

def w2p : Option String × List JRowA :=
  (some "s2",
   [⟨some "s2", some "R1",
     some ⟨some "R1", some 7, some 70, some "B1", some "E1", some "S1", some "P1"⟩⟩,
    ⟨some "s2", some "R9", none⟩])

theorem claim2_witness :
    w2p ∈ groupByKey JRowA.sample_id
      (leftJoinA (sraRunMembersLive w2raw) (w2df.rows.flatMap explodeAcc)) ∧
    (aggGroupA w2p).spots = spotsByOccurrence w2df (sraRunMembersLive w2raw) w2p.1 :=
  ⟨by decide, claim2_spots_per_occurrence w2df w2raw w2p (by decide)⟩

/-- Concrete input refuting C2 as stated: the accession list `R1;R1` repeats
a run, the code counts its reference row once per occurrence (200), while a
sum over the set of matching live reference rows is 100. -/
def c2df : CuratedTable := ⟨true, true, [⟨some "s", some "R1;R1", []⟩]⟩

def c2raw : List RawRefRow :=
  [⟨some "R1", some 100, some 1000, some "B1", some "E1", some "S1", some "P1",
    some "live", some "M1"⟩]

theorem claim2_counterexample :
    ((groupByKey JRowA.sample_id
        (leftJoinA (sraRunMembersLive c2raw) (c2df.rows.flatMap explodeAcc))).map
      (fun p => (aggGroupA p).spots)) = [200] ∧
    spotsBySetMembership c2df (sraRunMembersLive c2raw) (some "s") = 100 ∧
    (200 : Int) ≠ 100 := by decide

/-- C3 (amended): in every Scheme-A output group, the aggregated
biosample/experiment/sample/study fields are the first value of the joined
reference column in the group — null included, so they are null whenever
the group's first accession is null or unmatched (not the first non-null
value). -/
theorem claim3_first_value (df : CuratedTable) (df1 : List RefRow)
    (p : Option String × List JRowA)
    (hp : p ∈ groupByKey JRowA.sample_id (leftJoinA df1 (df.rows.flatMap explodeAcc))) :
    (aggGroupA p).biosample = firstRefValSpec df df1 p.1 RefRow.BioSample ∧
    (aggGroupA p).sra_experiment = firstRefValSpec df df1 p.1 RefRow.Experiment ∧
    (aggGroupA p).sra_sample = firstRefValSpec df df1 p.1 RefRow.Sample ∧
    (aggGroupA p).sra_study = firstRefValSpec df df1 p.1 RefRow.Study := by
  have h2 := groupByKey_snd_eq JRowA.sample_id _ p hp
  have key : ∀ f : RefRow → Option String,
      firstAggValA p.2 f = firstRefValSpec df df1 p.1 f := by
    intro f
    rw [h2, leftJoinA_filter_key, explode_filter_key, firstAggValA_leftJoinA]
    rfl
  exact ⟨key RefRow.BioSample, key RefRow.Experiment, key RefRow.Sample, key RefRow.Study⟩

/-- Concrete Scheme-A group for the C3 witness. -/
def w3df : CuratedTable := ⟨true, true, [⟨some "s3", some "R1", []⟩]⟩

def w3ref : List RefRow :=
  [⟨some "R1", some 4, some 40, some "B3", some "E3", some "S3", some "P3"⟩]

def w3p : Option String × List JRowA :=
  (some "s3",
   [⟨some "s3", some "R1",
     some ⟨some "R1", some 4, some 40, some "B3", some "E3", some "S3", some "P3"⟩⟩])

theorem claim3_witness :
    w3p ∈ groupByKey JRowA.sample_id (leftJoinA w3ref (w3df.rows.flatMap explodeAcc)) ∧
    ((aggGroupA w3p).biosample = firstRefValSpec w3df w3ref w3p.1 RefRow.BioSample ∧
     (aggGroupA w3p).sra_experiment = firstRefValSpec w3df w3ref w3p.1 RefRow.Experiment ∧
     (aggGroupA w3p).sra_sample = firstRefValSpec w3df w3ref w3p.1 RefRow.Sample ∧
     (aggGroupA w3p).sra_study = firstRefValSpec w3df w3ref w3p.1 RefRow.Study) :=
  ⟨by decide, claim3_first_value w3df w3ref w3p (by decide)⟩

/-- Concrete input refuting C3 as stated: accession list `R3;R1` whose
first component is unmatched — the aggregate is null although the first
non-null reference value in the group is `B1`. -/
def c3df : CuratedTable := ⟨true, true, [⟨some "s", some "R3;R1", []⟩]⟩

def c3ref : List RefRow :=
  [⟨some "R1", some 100, some 1000, some "B1", some "E1", some "S1", some "P1"⟩]

theorem claim3_counterexample :
    ((groupByKey JRowA.sample_id (leftJoinA c3ref (c3df.rows.flatMap explodeAcc))).map
      (fun p => ((aggGroupA p).biosample, firstNonNullInGroup p.2 RefRow.BioSample)))
      = [(none, some "B1")] ∧
    (none : Option String) ≠ some "B1" := by decide

/-- C4 (amended): in every Scheme-A output group, the collected accession
list is `accListSpec`: every component of the group's semicolon-split
accession values appears — unmatched components included (and a component
is repeated once per matching reference row when several rows match). -/
theorem claim4_acc_list (df : CuratedTable) (df1 : List RefRow)
    (p : Option String × List JRowA)
    (hp : p ∈ groupByKey JRowA.sample_id (leftJoinA df1 (df.rows.flatMap explodeAcc))) :
    (aggGroupA p).ncbi_accession = accListSpec df df1 p.1 := by
  have h2 := groupByKey_snd_eq JRowA.sample_id _ p hp
  show p.2.map JRowA.ncbi_accession = _
  rw [h2, leftJoinA_filter_key, explode_filter_key]
  show (((df.rows.filter (fun r => r.sample_id == p.1)).flatMap explodeAcc).flatMap
      (fun e => joinOneA df1 e.1 e.2)).map JRowA.ncbi_accession = _
  rw [List.map_flatMap, accListSpec]
  exact List.flatMap_congr (fun e _ => joinOneA_accs df1 e.1 e.2)

theorem claim4_witness :
    w2p ∈ groupByKey JRowA.sample_id
      (leftJoinA (sraRunMembersLive w2raw) (w2df.rows.flatMap explodeAcc)) ∧
    (aggGroupA w2p).ncbi_accession = accListSpec w2df (sraRunMembersLive w2raw) w2p.1 :=
  ⟨by decide, claim4_acc_list w2df (sraRunMembersLive w2raw) w2p (by decide)⟩

/-- Concrete input refuting C4 as stated: accession list `R1;R3` with `R3`
absent from the reference table — the collected list still contains `R3`,
while the list of matched components is `[R1]`. -/
def c4df : CuratedTable := ⟨true, true, [⟨some "s", some "R1;R3", []⟩]⟩

def c4ref : List RefRow :=
  [⟨some "R1", some 100, some 1000, some "B1", some "E1", some "S1", some "P1"⟩]

theorem claim4_counterexample :
    ((groupByKey JRowA.sample_id (leftJoinA c4ref (c4df.rows.flatMap explodeAcc))).map
      (fun p => (aggGroupA p).ncbi_accession)) = [[some "R1", some "R3"]] ∧
    matchedAccListSpec c4df c4ref (some "s") = [some "R1"] ∧
    ([some "R1", some "R3"] : List (Option String)) ≠ [some "R1"] := by decide

/-- C5 (amended): when the curated table has no explicit-accession column
and the Scheme-B sniff either finds no `sample_id` column or samples a
non-`SAM` value, the enriched frame is the initial empty one, the file is
written, and the row-count assertion fails exactly when the input is
non-empty — a zero-row table passes the assertion.  (A table with a
`sample_id` column but no row at index 1, or a null there, instead raises
before anything is written.) -/
theorem claim5_neither_scheme (df : CuratedTable) (df1 : List RefRow)
    (fs : Option Df2) (h1 : df.hasNcbiCol = false)
    (h2 : df.hasSampleIdCol = false ∨
      ∃ r s, df.rows[1]? = some r ∧ r.sample_id = some s ∧
        pyStartsWith s "SAM" = false) :
    add_study_and_sample_info df df1 fs
      = (some Df2.empty,
         if df.rows.isEmpty then Except.ok () else Except.error PyErr.assertionError) := by
  have hok : computeDf2 df df1 = .ok .empty := by
    rw [computeDf2, if_neg (by rw [h1]; exact Bool.false_ne_true)]
    rcases h2 with h2 | ⟨r, s, hr, hs, hsam⟩
    · rw [if_neg (by rw [h2]; exact Bool.false_ne_true)]
    · by_cases hcol : df.hasSampleIdCol
      · rw [if_pos hcol, hr]
        have hgoal : (match r.sample_id with
            | none => Except.error PyErr.attributeError
            | some s =>
              if pyStartsWith s "SAM" = true then Except.ok (Df2.B (schemeB df df1))
              else Except.ok Df2.empty) = Except.ok Df2.empty := by
          rw [hs]
          have : (if pyStartsWith s "SAM" = true
              then Except.ok (Df2.B (schemeB df df1))
              else Except.ok Df2.empty) = (Except.ok Df2.empty : Except PyErr Df2) := by
            rw [hsam, if_neg Bool.false_ne_true]
          exact this
        exact hgoal
      · rw [if_neg hcol]
  rw [add_eq_of_ok df df1 fs .empty hok]
  cases hrows : df.rows with
  | nil => simp [Df2.numRows]
  | cons r t => simp [Df2.numRows]

/-- Concrete one-row table (no `sample_id` column) for the C5 witness. -/
def w5df : CuratedTable := ⟨false, false, [⟨some "x5", none, []⟩]⟩

theorem claim5_witness :
    w5df.hasNcbiCol = false ∧
    add_study_and_sample_info w5df [] none
      = (some Df2.empty,
         if w5df.rows.isEmpty then Except.ok () else Except.error PyErr.assertionError) :=
  ⟨rfl, claim5_neither_scheme w5df [] none rfl (Or.inl rfl)⟩

/-- Zero-row tables refuting C5 as stated: with no `sample_id` column the
empty output passes the assertion (`0 == 0`); with a `sample_id` column the
row sampling raises an index error before any output is written.  In
neither case does the row-count assertion fail. -/
def c5aDf : CuratedTable := ⟨false, false, []⟩

def c5bDf : CuratedTable := ⟨false, true, []⟩

theorem claim5_counterexample :
    add_study_and_sample_info c5aDf [] none = (some Df2.empty, Except.ok ()) ∧
    add_study_and_sample_info c5bDf [] none = (none, Except.error PyErr.indexError) :=
  ⟨rfl, rfl⟩

/-- Downloaded reference table (as parsed from the NCBI URL) used to
exhibit the cache round-trip failure of C6. -/
def sraDownloadExample : CsvTable :=
  ⟨["Run", "Spots", "Bases", "Status", "Member_Name", "BioSample",
    "Experiment", "Sample", "Study"],
   [[some "SRR1", some "100", some "1000", some "live", some "M1",
     some "SAMN1", some "SRX1", some "SRS1", some "SRP1"],
    [some "SRR2", some "50", some "500", some "suppressed", some "M2",
     some "SAMN2", some "SRX2", some "SRS2", some "SRP2"]]⟩

/-- C6: the cache write/load is NOT a round trip.  `write_csv` serialises
with its default comma separator, while `load_sra_run_members` parses the
cache with the tab separator: the comma-joined header becomes one single
column, the `Spots` cast fails with a column-not-found error, and the
loaded result differs from applying the casts/filter/drops directly to the
downloaded table (which succeeds). -/
theorem claim6_cache_not_roundtrip :
    load_sra_run_members (write_csv sraDownloadExample) = .error .columnNotFound ∧
    refTransform sraDownloadExample
      = .ok ⟨["Run", "Spots", "Bases", "BioSample", "Experiment", "Sample", "Study"],
             [[some "SRR1", some "100", some "1000", some "SAMN1", some "SRX1",
               some "SRS1", some "SRP1"]]⟩ ∧
    load_sra_run_members (write_csv sraDownloadExample) ≠ refTransform sraDownloadExample := by
  refine ⟨rfl, rfl, ?_⟩
  decide

/-- C7: Scheme B is selected exactly when there is no `ncbi_accession`
column, there is a `sample_id` column, and the value at row index 1 exists,
is non-null and starts with `SAM` (so at least two rows are required); and
whenever the `ncbi_accession` column is present Scheme A takes precedence
(Scheme B is never entered). -/
theorem claim7_scheme_selection (df : CuratedTable) (df1 : List RefRow) :
    ((∃ rows, computeDf2 df df1 = .ok (.B rows)) ↔
      (df.hasNcbiCol = false ∧ df.hasSampleIdCol = true ∧ 2 ≤ df.rows.length ∧
       ∃ r, df.rows[1]? = some r ∧
         ∃ s, r.sample_id = some s ∧ pyStartsWith s "SAM" = true)) ∧
    (df.hasNcbiCol = true →
      computeDf2 df df1
        = (if df.hasSampleIdCol then .ok (.A (schemeA df df1))
           else .error .columnNotFound)) := by
  constructor
  · constructor
    · rintro ⟨rows, hrows⟩
      by_cases hn : df.hasNcbiCol
      · exfalso
        rw [computeDf2, if_pos hn] at hrows
        by_cases hs : df.hasSampleIdCol
        · rw [if_pos hs] at hrows
          exact Df2.noConfusion (Except.ok.inj hrows)
        · rw [if_neg hs] at hrows
          exact Except.noConfusion hrows
      · refine ⟨by simpa using hn, ?_⟩
        rw [computeDf2, if_neg hn] at hrows
        by_cases hs : df.hasSampleIdCol
        · refine ⟨hs, ?_⟩
          rw [if_pos hs] at hrows
          cases h1 : df.rows[1]? with
          | none =>
            rw [h1] at hrows
            exact absurd hrows (fun hh => Except.noConfusion hh)
          | some r =>
            rw [h1] at hrows
            have h' : (match r.sample_id with
                | none => Except.error PyErr.attributeError
                | some s =>
                  if pyStartsWith s "SAM" = true then Except.ok (Df2.B (schemeB df df1))
                  else Except.ok Df2.empty) = Except.ok (Df2.B rows) := hrows
            have hlen : 2 ≤ df.rows.length := by
              have := (List.getElem?_eq_some.mp h1).1
              omega
            cases h2 : r.sample_id with
            | none =>
              rw [h2] at h'
              exact absurd h' (fun hh => Except.noConfusion hh)
            | some s =>
              rw [h2] at h'
              have h'' : (if pyStartsWith s "SAM" = true
                  then Except.ok (Df2.B (schemeB df df1))
                  else Except.ok Df2.empty) = Except.ok (Df2.B rows) := h'
              by_cases h3 : pyStartsWith s "SAM" = true
              · exact ⟨hlen, r, rfl, s, h2, h3⟩
              · rw [if_neg h3] at h''
                exact absurd (Except.ok.inj h'') (fun hh => Df2.noConfusion hh)
        · rw [if_neg hs] at hrows
          exact absurd (Except.ok.inj hrows) (fun hh => Df2.noConfusion hh)
    · rintro ⟨hn, hs, hlen, r, h1, s, h2, h3⟩
      refine ⟨schemeB df df1, ?_⟩
      rw [computeDf2, if_neg (by rw [hn]; exact Bool.false_ne_true), if_pos hs, h1]
      have hgoal : (match r.sample_id with
          | none => Except.error PyErr.attributeError
          | some s =>
            if pyStartsWith s "SAM" = true then Except.ok (Df2.B (schemeB df df1))
            else Except.ok Df2.empty) = Except.ok (Df2.B (schemeB df df1)) := by
        rw [h2]
        have : (if pyStartsWith s "SAM" = true
            then Except.ok (Df2.B (schemeB df df1))
            else Except.ok Df2.empty)
            = (Except.ok (Df2.B (schemeB df df1)) : Except PyErr Df2) := by
          rw [if_pos h3]
        exact this
      exact hgoal
  · intro hn
    rw [computeDf2, if_pos hn]

/-- Two-row Scheme-B table for the C7 witness. -/
def w7df : CuratedTable :=
  ⟨false, true, [⟨some "SAMN10", none, []⟩, ⟨some "SAMN11", none, []⟩]⟩

theorem claim7_witness :
    (∃ rows, computeDf2 w7df [] = .ok (.B rows)) ∧
    (w1df.hasNcbiCol = true →
      computeDf2 w1df []
        = (if w1df.hasSampleIdCol then .ok (.A (schemeA w1df []))
           else .error .columnNotFound)) :=
  ⟨(claim7_scheme_selection w7df []).1.mpr
      ⟨rfl, rfl, by decide, ⟨some "SAMN11", none, []⟩, rfl, "SAMN11", rfl, by decide⟩,
    (claim7_scheme_selection w1df []).2⟩

/-- C8: `download_sra_run_members` fetches and rewrites the cache exactly
when `replace` is set or the cache file is absent; otherwise it performs no
fetch and the cache content is unchanged. -/
theorem claim8_download_only_when_needed (replace : Bool)
    (cache : Option (List Char)) (remote : CsvTable) :
    ((download_sra_run_members replace cache remote).2 = true
      ↔ (replace = true ∨ cache = none)) ∧
    ((download_sra_run_members replace cache remote).2 = false →
      (download_sra_run_members replace cache remote).1 = cache) ∧
    ((download_sra_run_members replace cache remote).2 = true →
      (download_sra_run_members replace cache remote).1 = some (write_csv remote)) := by
  cases replace <;> cases cache <;>
    simp [download_sra_run_members, Option.isNone]

/-- Pre-existing cache bytes for the C8 witness. -/
def w8cache : List Char := ['x', '\t', 'y']

theorem claim8_witness :
    (download_sra_run_members false (some w8cache) sraDownloadExample).2 = false ∧
    (download_sra_run_members false (some w8cache) sraDownloadExample).1 = some w8cache :=
  ⟨rfl,
    (claim8_download_only_when_needed false (some w8cache) sraDownloadExample).2.1 rfl⟩

theorem normalizeColumnName_idem (s : List Nat) :
    normalizeColumnName (normalizeColumnName s) = normalizeColumnName s := by
  simp only [normalizeColumnName]
  rw [lowerName_stripName_lowerName, stripName_idem]

/-- C9: the column-name normalisation of `load_curated_data` — lowercase,
then strip surrounding whitespace — is idempotent: renaming an
already-renamed header changes nothing. -/
theorem claim9_normalization_idempotent (header : List (List Nat)) :
    load_curated_data_rename (load_curated_data_rename header)
      = load_curated_data_rename header := by
  simp only [load_curated_data_rename, List.map_map]
  exact List.map_congr_left (fun n _ => normalizeColumnName_idem n)
